import Mathlib

/-!
Verification of the `docker` package of lucas-piegas/docker-utils (src/docker.go).

The Go code is embedded shallowly:

* `Container` mirrors the Go struct field for field.  Go's `time.Duration` is
  a `Nat` (nanosecond count), a `*client.Client` handle is `Option Unit`
  (`none` = nil), and the `Cmd` slice is `Option (List String)` because the
  code distinguishes a nil slice (`cmd == nil`) from a non-nil one.
* Every call into the external docker client library is resolved through a
  `Runtime` oracle that fixes the outcome of each operation, and each call is
  recorded as an `Event`, so ordering and which-steps-ran facts are the trace
  of the run.  `nat.NewPort` of go-connections is likewise an oracle field
  (it is library code, not repository code).
* `errors.Wrap msg` of pkg/errors produces the message `msg ++ ": " ++ cause`;
  `wrap` mirrors that.
-/

namespace DockerUtils

/-- Go `time.Duration`, a nanosecond count. -/
abbrev Duration := Nat

/-- The `Container` struct of src/docker.go.  `client` and `id` are the two
unexported runtime-identity fields (`*client.Client` and the container id). -/
structure Container where
  ImageToPull : String
  HostPort : String
  ContainerPort : String
  ContainerProtocol : String
  BindHostConfig : List String
  Env : List String
  Cmd : Option (List String)
  Sleep : Duration
  client : Option Unit
  id : String
deriving Repr, DecidableEq

/-- `WithContainerProtocol` option of src/docker.go. -/
def WithContainerProtocol (protocol : String) : Container → Container :=
  fun c => { c with ContainerProtocol := protocol }

/-- `WithHostPort` option of src/docker.go. -/
def WithHostPort (hostPort : String) : Container → Container :=
  fun c => { c with HostPort := hostPort }

/-- `WithContainerPort` option of src/docker.go. -/
def WithContainerPort (containerPort : String) : Container → Container :=
  fun c => { c with ContainerPort := containerPort }

/-- `WithBindHostConfig` option of src/docker.go. -/
def WithBindHostConfig (bindHostConfig : List String) : Container → Container :=
  fun c => { c with BindHostConfig := bindHostConfig }

/-- `WithEnv` option of src/docker.go. -/
def WithEnv (env : List String) : Container → Container :=
  fun c => { c with Env := env }

/-- `WithCmd` option of src/docker.go (the Go argument is a slice, possibly nil). -/
def WithCmd (cmd : Option (List String)) : Container → Container :=
  fun c => { c with Cmd := cmd }

/-- `WithSleep` option of src/docker.go. -/
def WithSleep (sleepTime : Duration) : Container → Container :=
  fun c => { c with Sleep := sleepTime }

/-- Reified configuration mutators: the seven `With*` option constructors the
package exports, each carrying its argument. -/
inductive Mutator where
  | withContainerProtocol (protocol : String)
  | withHostPort (hostPort : String)
  | withContainerPort (containerPort : String)
  | withBindHostConfig (bindHostConfig : List String)
  | withEnv (env : List String)
  | withCmd (cmd : Option (List String))
  | withSleep (sleepTime : Duration)
deriving Repr, DecidableEq

/-- The function a reified mutator denotes (the closure the Go `With*` returns). -/
def Mutator.toFun : Mutator → Container → Container
  | .withContainerProtocol p => WithContainerProtocol p
  | .withHostPort p => WithHostPort p
  | .withContainerPort p => WithContainerPort p
  | .withBindHostConfig b => WithBindHostConfig b
  | .withEnv e => WithEnv e
  | .withCmd c => WithCmd c
  | .withSleep s => WithSleep s

/-- Which of the seven option constructors a mutator is (its argument ignored). -/
def Mutator.kind : Mutator → Fin 7
  | .withContainerProtocol _ => 0
  | .withHostPort _ => 1
  | .withContainerPort _ => 2
  | .withBindHostConfig _ => 3
  | .withEnv _ => 4
  | .withCmd _ => 5
  | .withSleep _ => 6

/-- `NewContainer` of src/docker.go.  Validates the two positional arguments,
builds the default configuration, then applies the options left to right. -/
def NewContainer (imageToPull containerPort : String) (options : List Mutator) :
    Except String Container :=
  if imageToPull = "" then .error "imageToPull cannot be empty"
  else if containerPort = "" then .error "containerPort cannot be empty"
  else
    let conf : Container :=
      { ImageToPull := imageToPull
        HostPort := "9876"
        ContainerPort := containerPort
        ContainerProtocol := "tcp"
        BindHostConfig := []
        Env := []
        Cmd := none
        Sleep := 0
        client := none
        id := "" }
    .ok (options.foldl (fun c opt => opt.toFun c) conf)

/-- `nat.PortBinding` of go-connections: host IP and host port. -/
structure PortBinding where
  HostIP : String
  HostPort : String
deriving Repr, DecidableEq

/-- `nat.Port`, the runtime-native port descriptor `nat.NewPort` returns. -/
abbrev Port := String

/-- `nat.PortMap`: the port-bindings map passed to container creation
(association list, one entry here). -/
abbrev PortMap := List (Port × List PortBinding)

/-- The `container.Config` fields src/docker.go sets on creation. -/
structure ContainerConfig where
  AttachStdout : Bool
  AttachStderr : Bool
  Env : List String
  Image : String
deriving Repr, DecidableEq

/-- The `container.HostConfig` fields src/docker.go sets on creation. -/
structure HostConfig where
  PortBindings : PortMap
  Binds : List String
deriving Repr, DecidableEq

/-- The `types.ExecConfig` src/docker.go builds in `executeCommands`. -/
structure ExecConfig where
  AttachStdout : Bool
  AttachStderr : Bool
  Cmd : List String
deriving Repr, DecidableEq

/-- One observable interaction with the docker client library (or the local
sleep / log statements).  `readPullStream` would be a read of the response
stream `ImagePull` returns; it is part of the vocabulary so that its absence
from every trace of `CreateContainer` is a statable fact. -/
inductive Event where
  | newClient
  | newPort (proto port : String)
  | imagePull (image : String)
  | readPullStream
  | containerCreate (cfg : ContainerConfig) (host : HostConfig)
  | containerStart (id : String)
  | sleepFor (d : Duration)
  | execCreate (id : String) (cfg : ExecConfig)
  | execAttach (execId : String)
  | execStart (execId : String)
  | readAllOutput
  | logOutput (s : String)
  | closeResponse
  | containerStop (id : String)
  | logStopError (msg : String)
  | containerRemove (id : String)
  | logRemoveError (msg : String)
deriving Repr, DecidableEq

/-- Oracle fixing the outcome of every external docker-client call one run can
make (the stubbed `ContainerRuntimeClient`).  `natNewPort` stands for
go-connections' `nat.NewPort`; `containerCreate` returns the new container id,
`execCreate` the exec id; `readAllOutput` is the drained exec output (its read
error is discarded by the code, so only the data matters). -/
structure Runtime where
  newClient : Except String Unit
  natNewPort : Except String Port
  imagePull : Except String Unit
  containerCreate : Except String String
  containerStart : Except String Unit
  execCreate : Except String String
  execAttach : Except String Unit
  execStart : Except String Unit
  readAllOutput : String
  containerStop : Except String Unit
  containerRemove : Except String Unit
deriving Repr

/-- `errors.Wrap err msg` of pkg/errors: the wrapped message is
`msg ++ ": " ++ cause`. -/
def wrap (msg cause : String) : String := msg ++ ": " ++ cause

/-- `executeCommands` of src/docker.go.  Returns the Go error (`none` = nil)
and the trace of calls.  A nil `cmd` slice returns immediately; the attach
response is closed by `defer`, hence `closeResponse` is the last event on
every path that acquired it; the `ReadAll` error is discarded. -/
def executeCommands (rt : Runtime) (id : String) (cmd : Option (List String)) :
    Option String × List Event :=
  match cmd with
  | none => (none, [])
  | some cmdList =>
    let execConfig : ExecConfig := ⟨true, true, cmdList⟩
    match rt.execCreate with
    | .error e =>
        (some (wrap "unable to create exec configuration" e),
         [.execCreate id execConfig])
    | .ok execID =>
      match rt.execAttach with
      | .error e =>
          (some (wrap "unable to attach connection" e),
           [.execCreate id execConfig, .execAttach execID])
      | .ok _ =>
        match rt.execStart with
        | .error e =>
            (some (wrap "unable to start exec" e),
             [.execCreate id execConfig, .execAttach execID, .execStart execID,
              .closeResponse])
        | .ok _ =>
            (none,
             [.execCreate id execConfig, .execAttach execID, .execStart execID,
              .readAllOutput, .logOutput rt.readAllOutput, .closeResponse])

/-- `CreateContainer` of src/docker.go.  Returns the Go error (`none` = nil),
the post-state of the receiver (the code only assigns `c.id` and `c.client`,
and only after every step succeeded), and the trace of calls.  Note the
response stream `ImagePull` returns is assigned to the blank identifier in the
source, so no `readPullStream` event is ever emitted. -/
def CreateContainer (rt : Runtime) (c : Container) :
    Option String × Container × List Event :=
  match rt.newClient with
  | .error e => (some (wrap "unable to create docker client" e), c, [.newClient])
  | .ok _ =>
    let hostBinding : PortBinding := ⟨"127.0.0.1", c.HostPort⟩
    match rt.natNewPort with
    | .error e =>
        (some (wrap "unable to get port" e), c,
         [.newClient, .newPort c.ContainerProtocol c.ContainerPort])
    | .ok containerPort =>
      let portBinding : PortMap := [(containerPort, [hostBinding])]
      match rt.imagePull with
      | .error e =>
          (some (wrap "unable to pull image" e), c,
           [.newClient, .newPort c.ContainerProtocol c.ContainerPort,
            .imagePull c.ImageToPull])
      | .ok _ =>
        let cfg : ContainerConfig := ⟨true, true, c.Env, c.ImageToPull⟩
        let host : HostConfig := ⟨portBinding, c.BindHostConfig⟩
        match rt.containerCreate with
        | .error e =>
            (some (wrap "unable to create container" e), c,
             [.newClient, .newPort c.ContainerProtocol c.ContainerPort,
              .imagePull c.ImageToPull, .containerCreate cfg host])
        | .ok contID =>
          match rt.containerStart with
          | .error e =>
              (some (wrap "unable to start container" e), c,
               [.newClient, .newPort c.ContainerProtocol c.ContainerPort,
                .imagePull c.ImageToPull, .containerCreate cfg host,
                .containerStart contID])
          | .ok _ =>
            let execRes := executeCommands rt contID c.Cmd
            let trace :=
              [Event.newClient, .newPort c.ContainerProtocol c.ContainerPort,
               .imagePull c.ImageToPull, .containerCreate cfg host,
               .containerStart contID, .sleepFor c.Sleep] ++ execRes.2
            match execRes.1 with
            | some e => (some (wrap "commands were not executed" e), c, trace)
            | none => (none, { c with id := contID, client := some () }, trace)

/-- `Stop` of src/docker.go.  The Go method returns nothing; both calls are
made unconditionally in order and failures are only logged.  A nil `client`
(unprovisioned receiver) would dereference nil in Go, modelled as `none`. -/
def Stop (rt : Runtime) (c : Container) : Option (List Event) :=
  match c.client with
  | none => none
  | some _ =>
    let stopTrace :=
      match rt.containerStop with
      | .error e =>
          [Event.containerStop c.id, .logStopError (wrap "unable to stop container" e)]
      | .ok _ => [Event.containerStop c.id]
    let removeTrace :=
      match rt.containerRemove with
      | .error e =>
          [Event.containerRemove c.id,
           .logRemoveError (wrap "unable to remove container" e)]
      | .ok _ => [Event.containerRemove c.id]
    some (stopTrace ++ removeTrace)

/-- Characterization of `CreateContainer` when client construction fails. -/
theorem createContainer_client_error (rt : Runtime) (c : Container) (e : String)
    (h : rt.newClient = .error e) :
    CreateContainer rt c =
      (some (wrap "unable to create docker client" e), c, [.newClient]) := by
  simp [CreateContainer, h]

/-- Characterization of `CreateContainer` when port resolution fails. -/
theorem createContainer_port_error (rt : Runtime) (c : Container) (e : String)
    (h1 : rt.newClient = .ok ()) (h2 : rt.natNewPort = .error e) :
    CreateContainer rt c =
      (some (wrap "unable to get port" e), c,
       [.newClient, .newPort c.ContainerProtocol c.ContainerPort]) := by
  simp [CreateContainer, h1, h2]

/-- Characterization of `CreateContainer` when the image pull fails. -/
theorem createContainer_pull_error (rt : Runtime) (c : Container) (p : Port) (e : String)
    (h1 : rt.newClient = .ok ()) (h2 : rt.natNewPort = .ok p)
    (h3 : rt.imagePull = .error e) :
    CreateContainer rt c =
      (some (wrap "unable to pull image" e), c,
       [.newClient, .newPort c.ContainerProtocol c.ContainerPort,
        .imagePull c.ImageToPull]) := by
  simp [CreateContainer, h1, h2, h3]

/-- Characterization of `CreateContainer` when container creation fails. -/
theorem createContainer_create_error (rt : Runtime) (c : Container) (p : Port) (e : String)
    (h1 : rt.newClient = .ok ()) (h2 : rt.natNewPort = .ok p)
    (h3 : rt.imagePull = .ok ()) (h4 : rt.containerCreate = .error e) :
    CreateContainer rt c =
      (some (wrap "unable to create container" e), c,
       [.newClient, .newPort c.ContainerProtocol c.ContainerPort,
        .imagePull c.ImageToPull,
        .containerCreate ⟨true, true, c.Env, c.ImageToPull⟩
          ⟨[(p, [⟨"127.0.0.1", c.HostPort⟩])], c.BindHostConfig⟩]) := by
  simp [CreateContainer, h1, h2, h3, h4]

/-- Characterization of `CreateContainer` when starting the container fails. -/
theorem createContainer_start_error (rt : Runtime) (c : Container) (p : Port)
    (contID e : String)
    (h1 : rt.newClient = .ok ()) (h2 : rt.natNewPort = .ok p)
    (h3 : rt.imagePull = .ok ()) (h4 : rt.containerCreate = .ok contID)
    (h5 : rt.containerStart = .error e) :
    CreateContainer rt c =
      (some (wrap "unable to start container" e), c,
       [.newClient, .newPort c.ContainerProtocol c.ContainerPort,
        .imagePull c.ImageToPull,
        .containerCreate ⟨true, true, c.Env, c.ImageToPull⟩
          ⟨[(p, [⟨"127.0.0.1", c.HostPort⟩])], c.BindHostConfig⟩,
        .containerStart contID]) := by
  simp [CreateContainer, h1, h2, h3, h4, h5]

/-- Characterization of `CreateContainer` when the post-start commands fail. -/
theorem createContainer_exec_error (rt : Runtime) (c : Container) (p : Port)
    (contID e : String)
    (h1 : rt.newClient = .ok ()) (h2 : rt.natNewPort = .ok p)
    (h3 : rt.imagePull = .ok ()) (h4 : rt.containerCreate = .ok contID)
    (h5 : rt.containerStart = .ok ())
    (h6 : (executeCommands rt contID c.Cmd).1 = some e) :
    CreateContainer rt c =
      (some (wrap "commands were not executed" e), c,
       [.newClient, .newPort c.ContainerProtocol c.ContainerPort,
        .imagePull c.ImageToPull,
        .containerCreate ⟨true, true, c.Env, c.ImageToPull⟩
          ⟨[(p, [⟨"127.0.0.1", c.HostPort⟩])], c.BindHostConfig⟩,
        .containerStart contID, .sleepFor c.Sleep] ++
        (executeCommands rt contID c.Cmd).2) := by
  simp [CreateContainer, h1, h2, h3, h4, h5, h6]

/-- Characterization of `CreateContainer` on full success. -/
theorem createContainer_ok (rt : Runtime) (c : Container) (p : Port) (contID : String)
    (h1 : rt.newClient = .ok ()) (h2 : rt.natNewPort = .ok p)
    (h3 : rt.imagePull = .ok ()) (h4 : rt.containerCreate = .ok contID)
    (h5 : rt.containerStart = .ok ())
    (h6 : (executeCommands rt contID c.Cmd).1 = none) :
    CreateContainer rt c =
      (none, { c with id := contID, client := some () },
       [.newClient, .newPort c.ContainerProtocol c.ContainerPort,
        .imagePull c.ImageToPull,
        .containerCreate ⟨true, true, c.Env, c.ImageToPull⟩
          ⟨[(p, [⟨"127.0.0.1", c.HostPort⟩])], c.BindHostConfig⟩,
        .containerStart contID, .sleepFor c.Sleep] ++
        (executeCommands rt contID c.Cmd).2) := by
  simp [CreateContainer, h1, h2, h3, h4, h5, h6]

/-- No mutator touches the runtime-identity fields `id` and `client`. -/
theorem mutator_preserves_identity (m : Mutator) (c : Container) :
    (m.toFun c).id = c.id ∧ (m.toFun c).client = c.client := by
  cases m <;>
    simp [Mutator.toFun, WithContainerProtocol, WithHostPort, WithContainerPort,
      WithBindHostConfig, WithEnv, WithCmd, WithSleep]

/-- Every container `NewContainer` produces has empty `id` and nil `client`. -/
theorem newContainer_identity_unset (image port : String) (options : List Mutator)
    (c : Container) (h : NewContainer image port options = .ok c) :
    c.id = "" ∧ c.client = none := by
  by_cases hi : image = ""
  · simp [NewContainer, hi] at h
  by_cases hp : port = ""
  · simp [NewContainer, hi, hp] at h
  simp only [NewContainer, if_neg hi, if_neg hp, Except.ok.injEq] at h
  subst h
  generalize hconf :
    ({ ImageToPull := image, HostPort := "9876", ContainerPort := port,
       ContainerProtocol := "tcp", BindHostConfig := [], Env := [], Cmd := none,
       Sleep := 0, client := none, id := "" } : Container) = conf
  have hid : conf.id = "" ∧ conf.client = none := by
    rw [← hconf]
    exact ⟨rfl, rfl⟩
  clear hconf
  induction options generalizing conf with
  | nil => simpa using hid
  | cons m ms ih =>
      simp only [List.foldl]
      exact ih _ ⟨(mutator_preserves_identity m conf).1.trans hid.1,
        (mutator_preserves_identity m conf).2.trans hid.2⟩

/-- A runtime stub in which every operation succeeds. -/
def rtAllOk : Runtime :=
  { newClient := .ok ()
    natNewPort := .ok "3306/tcp"
    imagePull := .ok ()
    containerCreate := .ok "cid0"
    containerStart := .ok ()
    execCreate := .ok "eid0"
    execAttach := .ok ()
    execStart := .ok ()
    readAllOutput := "output"
    containerStop := .ok ()
    containerRemove := .ok () }

/-- A runtime stub whose image pull fails. -/
def rtPullFail : Runtime := { rtAllOk with imagePull := .error "network down" }

/-- A runtime stub in which both teardown operations fail. -/
def rtTeardownFail : Runtime :=
  { rtAllOk with
    containerStop := .error "stop failed"
    containerRemove := .error "remove failed" }

/-- The configuration `NewContainer "mysql:8" "3306" []` produces. -/
def confDefault : Container :=
  { ImageToPull := "mysql:8"
    HostPort := "9876"
    ContainerPort := "3306"
    ContainerProtocol := "tcp"
    BindHostConfig := []
    Env := []
    Cmd := none
    Sleep := 0
    client := none
    id := "" }

/-- A configured container with a custom host port and environment. -/
def confMySQL : Container :=
  { confDefault with HostPort := "13306", Env := ["MYSQL_ROOT_PASSWORD=secret"] }

/-- A provisioned (running) container instance. -/
def contRunning : Container := { confMySQL with id := "cid0", client := some () }

/-- Claim C2: `NewContainer` rejects an empty image or an empty container
port, and with both non-empty and no options yields host port "9876",
protocol "tcp", empty bindings, environment and command, and zero sleep. -/
theorem c2_constructor_validation_defaults :
    (∀ port options, NewContainer "" port options =
      .error "imageToPull cannot be empty") ∧
    (∀ image options, image ≠ "" → NewContainer image "" options =
      .error "containerPort cannot be empty") ∧
    (∀ image port, image ≠ "" → port ≠ "" →
      NewContainer image port [] =
        .ok { ImageToPull := image, HostPort := "9876", ContainerPort := port,
              ContainerProtocol := "tcp", BindHostConfig := [], Env := [],
              Cmd := none, Sleep := 0, client := none, id := "" }) := by
  refine ⟨fun port options => by simp [NewContainer],
    fun image options h => by simp [NewContainer, h],
    fun image port h1 h2 => by simp [NewContainer, h1, h2]⟩

/-- Witness for C2 at concrete arguments. -/
theorem c2_constructor_validation_defaults_witness :
    NewContainer "" "3306" [] = .error "imageToPull cannot be empty" ∧
    NewContainer "mysql:8" "" [] = .error "containerPort cannot be empty" ∧
    NewContainer "mysql:8" "3306" [] = .ok confDefault :=
  ⟨c2_constructor_validation_defaults.1 "3306" [],
   c2_constructor_validation_defaults.2.1 "mysql:8" [] (by decide),
   c2_constructor_validation_defaults.2.2 "mysql:8" "3306" (by decide) (by decide)⟩

/-- Claim C9: two option mutators of different kinds commute: applying them
to `NewContainer` in either order yields the same result, for all argument
values. -/
theorem c9_mutators_commute (m1 m2 : Mutator) (image port : String)
    (h : m1.kind ≠ m2.kind) :
    NewContainer image port [m1, m2] = NewContainer image port [m2, m1] := by
  have key : ∀ c : Container, m2.toFun (m1.toFun c) = m1.toFun (m2.toFun c) := by
    intro c
    cases c
    cases m1 <;> cases m2 <;> first
      | rfl
      | simp [Mutator.kind] at h
  unfold NewContainer
  split
  · rfl
  split
  · rfl
  simp only [List.foldl]
  rw [key]

/-- Witness for C9: host-port and environment mutators at concrete values. -/
theorem c9_mutators_commute_witness :
    (Mutator.withHostPort "13306").kind ≠ (Mutator.withEnv ["A=1"]).kind ∧
    NewContainer "mysql:8" "3306" [.withHostPort "13306", .withEnv ["A=1"]] =
      NewContainer "mysql:8" "3306" [.withEnv ["A=1"], .withHostPort "13306"] :=
  ⟨by decide,
   c9_mutators_commute (.withHostPort "13306") (.withEnv ["A=1"]) "mysql:8" "3306"
     (by decide)⟩

/-- Claim C10: `NewContainer` validates only its two positional arguments;
option mutators applied afterwards may set the ports to the empty string and
construction still succeeds. -/
theorem c10_options_bypass_validation (image port : String)
    (h1 : image ≠ "") (h2 : port ≠ "") :
    NewContainer image port [.withContainerPort "", .withHostPort ""] =
      .ok { ImageToPull := image, HostPort := "", ContainerPort := "",
            ContainerProtocol := "tcp", BindHostConfig := [], Env := [],
            Cmd := none, Sleep := 0, client := none, id := "" } := by
  simp [NewContainer, h1, h2, Mutator.toFun, WithContainerPort, WithHostPort]

/-- Witness for C10 at concrete arguments. -/
theorem c10_options_bypass_validation_witness :
    NewContainer "mysql:8" "3306" [.withContainerPort "", .withHostPort ""] =
      .ok { ImageToPull := "mysql:8", HostPort := "", ContainerPort := "",
            ContainerProtocol := "tcp", BindHostConfig := [], Env := [],
            Cmd := none, Sleep := 0, client := none, id := "" } :=
  c10_options_bypass_validation "mysql:8" "3306" (by decide) (by decide)

/-- Claim C1: `CreateContainer` performs connect, resolve port, pull, create,
start, sleep, exec in that order; a failure at step k yields the wrapped error
naming step k, and the trace stops at step k (no later step is invoked). -/
theorem c1_provision_step_order (rt : Runtime) (c : Container) :
    (∀ e, rt.newClient = .error e →
      CreateContainer rt c =
        (some (wrap "unable to create docker client" e), c, [.newClient])) ∧
    (∀ e, rt.newClient = .ok () → rt.natNewPort = .error e →
      CreateContainer rt c =
        (some (wrap "unable to get port" e), c,
         [.newClient, .newPort c.ContainerProtocol c.ContainerPort])) ∧
    (∀ p e, rt.newClient = .ok () → rt.natNewPort = .ok p →
      rt.imagePull = .error e →
      CreateContainer rt c =
        (some (wrap "unable to pull image" e), c,
         [.newClient, .newPort c.ContainerProtocol c.ContainerPort,
          .imagePull c.ImageToPull])) ∧
    (∀ p e, rt.newClient = .ok () → rt.natNewPort = .ok p →
      rt.imagePull = .ok () → rt.containerCreate = .error e →
      CreateContainer rt c =
        (some (wrap "unable to create container" e), c,
         [.newClient, .newPort c.ContainerProtocol c.ContainerPort,
          .imagePull c.ImageToPull,
          .containerCreate ⟨true, true, c.Env, c.ImageToPull⟩
            ⟨[(p, [⟨"127.0.0.1", c.HostPort⟩])], c.BindHostConfig⟩])) ∧
    (∀ p contID e, rt.newClient = .ok () → rt.natNewPort = .ok p →
      rt.imagePull = .ok () → rt.containerCreate = .ok contID →
      rt.containerStart = .error e →
      CreateContainer rt c =
        (some (wrap "unable to start container" e), c,
         [.newClient, .newPort c.ContainerProtocol c.ContainerPort,
          .imagePull c.ImageToPull,
          .containerCreate ⟨true, true, c.Env, c.ImageToPull⟩
            ⟨[(p, [⟨"127.0.0.1", c.HostPort⟩])], c.BindHostConfig⟩,
          .containerStart contID])) ∧
    (∀ p contID e, rt.newClient = .ok () → rt.natNewPort = .ok p →
      rt.imagePull = .ok () → rt.containerCreate = .ok contID →
      rt.containerStart = .ok () →
      (executeCommands rt contID c.Cmd).1 = some e →
      CreateContainer rt c =
        (some (wrap "commands were not executed" e), c,
         [.newClient, .newPort c.ContainerProtocol c.ContainerPort,
          .imagePull c.ImageToPull,
          .containerCreate ⟨true, true, c.Env, c.ImageToPull⟩
            ⟨[(p, [⟨"127.0.0.1", c.HostPort⟩])], c.BindHostConfig⟩,
          .containerStart contID, .sleepFor c.Sleep] ++
          (executeCommands rt contID c.Cmd).2)) ∧
    (∀ p contID, rt.newClient = .ok () → rt.natNewPort = .ok p →
      rt.imagePull = .ok () → rt.containerCreate = .ok contID →
      rt.containerStart = .ok () →
      (executeCommands rt contID c.Cmd).1 = none →
      CreateContainer rt c =
        (none, { c with id := contID, client := some () },
         [.newClient, .newPort c.ContainerProtocol c.ContainerPort,
          .imagePull c.ImageToPull,
          .containerCreate ⟨true, true, c.Env, c.ImageToPull⟩
            ⟨[(p, [⟨"127.0.0.1", c.HostPort⟩])], c.BindHostConfig⟩,
          .containerStart contID, .sleepFor c.Sleep] ++
          (executeCommands rt contID c.Cmd).2)) :=
  ⟨fun e h => createContainer_client_error rt c e h,
   fun e h1 h2 => createContainer_port_error rt c e h1 h2,
   fun p e h1 h2 h3 => createContainer_pull_error rt c p e h1 h2 h3,
   fun p e h1 h2 h3 h4 => createContainer_create_error rt c p e h1 h2 h3 h4,
   fun p contID e h1 h2 h3 h4 h5 =>
     createContainer_start_error rt c p contID e h1 h2 h3 h4 h5,
   fun p contID e h1 h2 h3 h4 h5 h6 =>
     createContainer_exec_error rt c p contID e h1 h2 h3 h4 h5 h6,
   fun p contID h1 h2 h3 h4 h5 h6 =>
     createContainer_ok rt c p contID h1 h2 h3 h4 h5 h6⟩

/-- Witness for C1: a pull failure stops the run after the pull step. -/
theorem c1_provision_step_order_witness :
    CreateContainer rtPullFail confMySQL =
      (some (wrap "unable to pull image" "network down"), confMySQL,
       [.newClient, .newPort "tcp" "3306", .imagePull "mysql:8"]) :=
  (c1_provision_step_order rtPullFail confMySQL).2.2.1 "3306/tcp" "network down"
    rfl rfl rfl

/-- On every failing path, `CreateContainer` leaves the receiver unchanged. -/
theorem createContainer_error_unchanged (rt : Runtime) (c : Container) (e : String)
    (h : (CreateContainer rt c).1 = some e) : (CreateContainer rt c).2.1 = c := by
  rcases h1 : rt.newClient with e1 | ⟨⟩
  · simp [createContainer_client_error rt c e1 h1]
  rcases h2 : rt.natNewPort with e2 | p
  · simp [createContainer_port_error rt c e2 h1 h2]
  rcases h3 : rt.imagePull with e3 | ⟨⟩
  · simp [createContainer_pull_error rt c p e3 h1 h2 h3]
  rcases h4 : rt.containerCreate with e4 | contID
  · simp [createContainer_create_error rt c p e4 h1 h2 h3 h4]
  rcases h5 : rt.containerStart with e5 | ⟨⟩
  · simp [createContainer_start_error rt c p contID e5 h1 h2 h3 h4 h5]
  rcases h6 : (executeCommands rt contID c.Cmd).1 with _ | e6
  · rw [createContainer_ok rt c p contID h1 h2 h3 h4 h5 h6] at h
    simp at h
  · simp [createContainer_exec_error rt c p contID e6 h1 h2 h3 h4 h5 h6]

/-- On success, the receiver gains exactly the created container id and the
client handle. -/
theorem createContainer_ok_state (rt : Runtime) (c : Container)
    (h : (CreateContainer rt c).1 = none) :
    ∃ contID, rt.containerCreate = .ok contID ∧
      (CreateContainer rt c).2.1 = { c with id := contID, client := some () } := by
  rcases h1 : rt.newClient with e1 | ⟨⟩
  · rw [createContainer_client_error rt c e1 h1] at h
    simp at h
  rcases h2 : rt.natNewPort with e2 | p
  · rw [createContainer_port_error rt c e2 h1 h2] at h
    simp at h
  rcases h3 : rt.imagePull with e3 | ⟨⟩
  · rw [createContainer_pull_error rt c p e3 h1 h2 h3] at h
    simp at h
  rcases h4 : rt.containerCreate with e4 | contID
  · rw [createContainer_create_error rt c p e4 h1 h2 h3 h4] at h
    simp at h
  rcases h5 : rt.containerStart with e5 | ⟨⟩
  · rw [createContainer_start_error rt c p contID e5 h1 h2 h3 h4 h5] at h
    simp at h
  rcases h6 : (executeCommands rt contID c.Cmd).1 with _ | e6
  · exact ⟨contID, rfl,
      by simp [createContainer_ok rt c p contID h1 h2 h3 h4 h5 h6]⟩
  · rw [createContainer_exec_error rt c p contID e6 h1 h2 h3 h4 h5 h6] at h
    simp at h

/-- Claim C3: any `NewContainer` result has empty `id` and nil `client`, and
`CreateContainer` leaves both unset on every failing path and sets both
together only on success. -/
theorem c3_identity_set_only_on_success (rt : Runtime) (image port : String)
    (options : List Mutator) (c : Container)
    (hc : NewContainer image port options = .ok c) :
    c.id = "" ∧ c.client = none ∧
    (∀ e, (CreateContainer rt c).1 = some e → (CreateContainer rt c).2.1 = c) ∧
    ((CreateContainer rt c).1 = none →
      ∃ contID, rt.containerCreate = .ok contID ∧
        (CreateContainer rt c).2.1 = { c with id := contID, client := some () }) := by
  obtain ⟨hid, hcl⟩ := newContainer_identity_unset image port options c hc
  exact ⟨hid, hcl, fun e he => createContainer_error_unchanged rt c e he,
    fun hn => createContainer_ok_state rt c hn⟩

/-- Witness for C3: a post-start command failure leaves the instance unchanged. -/
theorem c3_identity_set_only_on_success_witness :
    confDefault.id = "" ∧ confDefault.client = none ∧
    (CreateContainer rtPullFail confDefault).2.1 = confDefault :=
  have h := c3_identity_set_only_on_success rtPullFail "mysql:8" "3306" [] confDefault rfl
  ⟨h.1, h.2.1, h.2.2.1 (wrap "unable to pull image" "network down") rfl⟩

/-- True exactly on the stop-container call event. -/
def Event.isStopCall : Event → Bool
  | .containerStop _ => true
  | _ => false

/-- True exactly on the remove-container call event. -/
def Event.isRemoveCall : Event → Bool
  | .containerRemove _ => true
  | _ => false

/-- Claim C4: on a provisioned instance, `Stop` calls stop-container then
remove-container exactly once each with the stored id, in that order, for
every combination of outcomes; failures only produce log events, and the
method has no error result at all (its return carries only the trace). -/
theorem c4_stop_best_effort (rt : Runtime) (c : Container)
    (h : c.client = some ()) :
    ∃ tr : List Event, Stop rt c = some tr ∧
      tr.filter Event.isStopCall = [.containerStop c.id] ∧
      tr.filter Event.isRemoveCall = [.containerRemove c.id] ∧
      (∃ i j : Nat, i < j ∧ tr.get? i = some (.containerStop c.id) ∧
        tr.get? j = some (.containerRemove c.id)) ∧
      (∀ e, rt.containerStop = .error e →
        Event.logStopError (wrap "unable to stop container" e) ∈ tr) ∧
      (∀ e, rt.containerRemove = .error e →
        Event.logRemoveError (wrap "unable to remove container" e) ∈ tr) := by
  rcases hs : rt.containerStop with es | ⟨⟩ <;>
    rcases hr : rt.containerRemove with er | ⟨⟩
  · refine ⟨[.containerStop c.id,
        .logStopError (wrap "unable to stop container" es),
        .containerRemove c.id,
        .logRemoveError (wrap "unable to remove container" er)],
      by simp [Stop, h, hs, hr], rfl, rfl, ⟨0, 2, by decide, rfl, rfl⟩, ?_, ?_⟩
    · intro e he
      injection he with hee
      subst hee
      simp
    · intro e he
      injection he with hee
      subst hee
      simp
  · refine ⟨[.containerStop c.id,
        .logStopError (wrap "unable to stop container" es),
        .containerRemove c.id],
      by simp [Stop, h, hs, hr], rfl, rfl, ⟨0, 2, by decide, rfl, rfl⟩, ?_, ?_⟩
    · intro e he
      injection he with hee
      subst hee
      simp
    · intro e he
      cases he
  · refine ⟨[.containerStop c.id, .containerRemove c.id,
        .logRemoveError (wrap "unable to remove container" er)],
      by simp [Stop, h, hs, hr], rfl, rfl, ⟨0, 1, by decide, rfl, rfl⟩, ?_, ?_⟩
    · intro e he
      cases he
    · intro e he
      injection he with hee
      subst hee
      simp
  · refine ⟨[.containerStop c.id, .containerRemove c.id],
      by simp [Stop, h, hs, hr], rfl, rfl, ⟨0, 1, by decide, rfl, rfl⟩, ?_, ?_⟩
    · intro e he
      cases he
    · intro e he
      cases he

/-- Witness for C4: teardown with both underlying calls failing. -/
theorem c4_stop_best_effort_witness :
    contRunning.client = some () ∧
    (Stop rtTeardownFail contRunning).isSome = true := by
  refine ⟨rfl, ?_⟩
  obtain ⟨tr, htr, -, -, -, -, -⟩ := c4_stop_best_effort rtTeardownFail contRunning rfl
  rw [htr]
  rfl

/-- True exactly on the three exec-related call events. -/
def Event.isExecCall : Event → Bool
  | .execCreate _ _ => true
  | .execAttach _ => true
  | .execStart _ => true
  | _ => false

/-- Claim C5: with no post-start command configured (nil `Cmd`) and every
earlier step succeeding, provisioning succeeds and no exec call appears in
the trace. -/
theorem c5_no_command_no_exec (rt : Runtime) (c : Container) (p : Port)
    (contID : String) (hcmd : c.Cmd = none)
    (h1 : rt.newClient = .ok ()) (h2 : rt.natNewPort = .ok p)
    (h3 : rt.imagePull = .ok ()) (h4 : rt.containerCreate = .ok contID)
    (h5 : rt.containerStart = .ok ()) :
    (CreateContainer rt c).1 = none ∧
    (CreateContainer rt c).2.2.filter Event.isExecCall = [] := by
  have h6 : (executeCommands rt contID c.Cmd).1 = none := by
    rw [hcmd]
    rfl
  have h7 : (executeCommands rt contID c.Cmd).2 = [] := by
    rw [hcmd]
    rfl
  rw [createContainer_ok rt c p contID h1 h2 h3 h4 h5 h6]
  refine ⟨rfl, ?_⟩
  simp only [h7]
  rfl

/-- Witness for C5: the default configuration has no command and provisions
without any exec call. -/
theorem c5_no_command_no_exec_witness :
    (CreateContainer rtAllOk confDefault).1 = none ∧
    (CreateContainer rtAllOk confDefault).2.2.filter Event.isExecCall = [] :=
  c5_no_command_no_exec rtAllOk confDefault "3306/tcp" "cid0" rfl rfl rfl rfl rfl rfl

/-- Claim C6: whenever the create step is reached, the create call receives
stdout/stderr attachment, the configured environment, image and volume
bindings, and the port map binding host 127.0.0.1 and `HostPort` to the
resolved port; the port was resolved from `ContainerProtocol` and
`ContainerPort`. -/
theorem c6_create_call_arguments (rt : Runtime) (c : Container) (p : Port)
    (h1 : rt.newClient = .ok ()) (h2 : rt.natNewPort = .ok p)
    (h3 : rt.imagePull = .ok ()) :
    Event.newPort c.ContainerProtocol c.ContainerPort ∈
      (CreateContainer rt c).2.2 ∧
    Event.containerCreate ⟨true, true, c.Env, c.ImageToPull⟩
        ⟨[(p, [⟨"127.0.0.1", c.HostPort⟩])], c.BindHostConfig⟩ ∈
      (CreateContainer rt c).2.2 := by
  rcases h4 : rt.containerCreate with e4 | contID
  · rw [createContainer_create_error rt c p e4 h1 h2 h3 h4]
    exact ⟨by simp, by simp⟩
  rcases h5 : rt.containerStart with e5 | ⟨⟩
  · rw [createContainer_start_error rt c p contID e5 h1 h2 h3 h4 h5]
    exact ⟨by simp, by simp⟩
  rcases h6 : (executeCommands rt contID c.Cmd).1 with _ | e6
  · rw [createContainer_ok rt c p contID h1 h2 h3 h4 h5 h6]
    exact ⟨by simp, by simp⟩
  · rw [createContainer_exec_error rt c p contID e6 h1 h2 h3 h4 h5 h6]
    exact ⟨by simp, by simp⟩

/-- Witness for C6 on the concrete mysql configuration. -/
theorem c6_create_call_arguments_witness :
    Event.containerCreate ⟨true, true, ["MYSQL_ROOT_PASSWORD=secret"], "mysql:8"⟩
        ⟨[("3306/tcp", [⟨"127.0.0.1", "13306"⟩])], []⟩ ∈
      (CreateContainer rtAllOk confMySQL).2.2 :=
  (c6_create_call_arguments rtAllOk confMySQL "3306/tcp" rfl rfl rfl).2

/-- The exec step never reads the pull stream. -/
theorem executeCommands_no_pull_read (rt : Runtime) (id : String)
    (cmd : Option (List String)) :
    Event.readPullStream ∉ (executeCommands rt id cmd).2 := by
  rcases cmd with _ | cmdList
  · simp [executeCommands]
  rcases hc : rt.execCreate with e | eid <;>
    rcases ha : rt.execAttach with e2 | ⟨⟩ <;>
      rcases hst : rt.execStart with e3 | ⟨⟩ <;>
        simp [executeCommands, hc, ha, hst]

/-- Claim C7 (refuted intent): no run of `CreateContainer` ever reads the
response stream `ImagePull` returns — the source assigns it to the blank
identifier — so container creation is issued without the pull stream having
been consumed. -/
theorem c7_pull_stream_never_consumed (rt : Runtime) (c : Container) :
    Event.readPullStream ∉ (CreateContainer rt c).2.2 := by
  rcases h1 : rt.newClient with e1 | ⟨⟩
  · simp [createContainer_client_error rt c e1 h1]
  rcases h2 : rt.natNewPort with e2 | p
  · simp [createContainer_port_error rt c e2 h1 h2]
  rcases h3 : rt.imagePull with e3 | ⟨⟩
  · simp [createContainer_pull_error rt c p e3 h1 h2 h3]
  rcases h4 : rt.containerCreate with e4 | contID
  · simp [createContainer_create_error rt c p e4 h1 h2 h3 h4]
  rcases h5 : rt.containerStart with e5 | ⟨⟩
  · simp [createContainer_start_error rt c p contID e5 h1 h2 h3 h4 h5]
  rcases h6 : (executeCommands rt contID c.Cmd).1 with _ | e6
  · rw [createContainer_ok rt c p contID h1 h2 h3 h4 h5 h6]
    simp [executeCommands_no_pull_read rt contID c.Cmd]
  · rw [createContainer_exec_error rt c p contID e6 h1 h2 h3 h4 h5 h6]
    simp [executeCommands_no_pull_read rt contID c.Cmd]

/-- Claim C8: once the exec attach succeeded, the response is closed on every
path out of `executeCommands` (the close is deferred). -/
theorem c8_attach_always_released (rt : Runtime) (id : String)
    (cmdList : List String) (eid : String)
    (hc : rt.execCreate = .ok eid) (ha : rt.execAttach = .ok ()) :
    Event.closeResponse ∈ (executeCommands rt id (some cmdList)).2 := by
  rcases hst : rt.execStart with e | ⟨⟩ <;>
    simp [executeCommands, hc, ha, hst]

/-- Witness for C8 at a concrete exec run. -/
theorem c8_attach_always_released_witness :
    Event.closeResponse ∈ (executeCommands rtAllOk "cid0" (some ["echo", "hi"])).2 :=
  c8_attach_always_released rtAllOk "cid0" ["echo", "hi"] "eid0" rfl rfl

end DockerUtils
